import Mathlib

/-!
Verification of the Clay event-coordination core: the Hub event bus
(`HubImpl` in the source) and the Attention admission controller
(`Attention` in `src/faculties/attention.ts`).

Modelling conventions:
* JS strings are embedded as `List Char` (content) or `String` (role names,
  descriptions); `s.substring(0, n)` is `List.take n` (JS clamps a negative
  end index to 0, matching truncated `Nat` subtraction).
* JS numbers that carry fractional values (focus weights, budgets,
  percentages, usage ratios) are embedded as `ℚ`; `Math.floor` is `Rat.floor`.
* JS `Map` is an association list in insertion order: `set` on a fresh key
  appends, `set` on an existing key updates in place, and keys are never
  removed unless the code deletes them (the pending-activities map never
  deletes keys).
* The external `@datastructures-js` `MaxPriorityQueue` is outside this
  repository; draining it is modelled as a stable sort by priority
  descending (ties keep insertion order), following the spec's description
  of the pending queue.
* `async` results are embedded as `Except`: a handler's promise either
  resolves (`ok`) or rejects (`error`).
-/

namespace Clay

/-- An attention-field entry: the truncated snapshot of a conscious
activity (`AttentionEntry` in the source). Timestamps are epoch
milliseconds. -/
structure AttentionEntry where
  role : String
  timestamp : Int
  priority : Int
  content : List Char
deriving DecidableEq, Repr

/-- Character size of one entry (`entry.content.length`). -/
def entrySize (e : AttentionEntry) : Nat := e.content.length

/-- Total character size of a list of entries
(`entries.reduce((sum, entry) => sum + entry.content.length, 0)`). -/
def entriesSize (l : List AttentionEntry) : Nat := (l.map entrySize).sum

/-- Activity bodies published by the attention controller:
`AttentionClearedBody` and `AttentionAddBody` in the source, with exactly
the fields the code puts in them. -/
inductive HubBody where
  | cleared (clearedEntries : List AttentionEntry)
      (clearedCount totalCount clearedSize remainingSize : Nat)
  | add (addedEntries attentionField : List AttentionEntry)
      (currentSize maxSize : Nat) (usage : ℚ)
deriving DecidableEq, Repr

/-- The attention configuration (`AttentionConfig` in the source). -/
structure AttentionConfig where
  maxSize : Nat
  clearPercentage : ℚ
  reaction_time : ℚ
  size_per_second : ℚ
  max_entry_length : Nat
deriving DecidableEq, Repr

/-- The mutable state of one `Attention` instance: `focuses`,
`attentionField`, `currentSize`, `pendingActivitiesByRole` (association
list in JS-`Map` insertion order; keys are never deleted), and whether a
hub port is bound. -/
structure AttentionState where
  config : AttentionConfig
  focuses : List (String × ℚ)
  attentionField : List AttentionEntry
  currentSize : Nat
  pending : List (String × List AttentionEntry)
  hubBound : Bool
deriving DecidableEq, Repr

/-- `getFacultyFocus`: `this.focuses.get(role) ?? 1`. -/
def getFacultyFocus (s : AttentionState) (role : String) : ℚ :=
  (List.lookup role s.focuses).getD 1

/-- A conscious activity as the attention controller sees it: identity
fields plus the `readable()` render, whose evaluation may fail. -/
structure Conscious where
  role : String
  timestamp : Int
  priority : Int
  readable : Except String (List Char)
deriving Repr

/-- The truncation marker appended by `consciousToEntry` (`'...'`). -/
def truncMarker : List Char := ['.', '.', '.']

/-- `consciousToEntry`: renders the activity (`undefined` on render
failure), truncates content longer than `max_entry_length` to
`content.substring(0, max_entry_length - 3) + '...'`. -/
def consciousToEntry (cfg : AttentionConfig) (a : Conscious) : Option AttentionEntry :=
  match a.readable with
  | .error _ => none
  | .ok content0 =>
    let content :=
      if cfg.max_entry_length < content0.length then
        content0.take (cfg.max_entry_length - 3) ++ truncMarker
      else content0
    some { role := a.role, timestamp := a.timestamp, priority := a.priority,
           content := content }

/-- Enqueue an entry under its role in the pending map: append to the
existing queue, or append a fresh `(role, [entry])` key if absent
(JS `Map.set` on a new key appends). -/
def enqueuePending (m : List (String × List AttentionEntry)) (r : String)
    (e : AttentionEntry) : List (String × List AttentionEntry) :=
  match m with
  | [] => [(r, [e])]
  | (r', q) :: rest =>
    if r' = r then (r', q ++ [e]) :: rest else (r', q) :: enqueuePending rest r e

/-- `handleConsciousActivity`: convert and enqueue; a failed conversion is
logged and dropped, leaving the state unchanged. -/
def handleConsciousActivity (s : AttentionState) (a : Conscious) : AttentionState :=
  match consciousToEntry s.config a with
  | none => s
  | some e => { s with pending := enqueuePending s.pending e.role e }

/-- Draining one role's `MaxPriorityQueue`: all entries in priority order,
highest first, ties in insertion order (stable sort). -/
def drainQueue (q : List AttentionEntry) : List AttentionEntry :=
  q.insertionSort (fun a b => b.priority ≤ a.priority)

/-- Step 1 of the tick: `maxAddSize = size_per_second * (reaction_time / 1000)`. -/
def maxAddSize (cfg : AttentionConfig) : ℚ :=
  cfg.size_per_second * (cfg.reaction_time / 1000)

/-- Step 2 of the tick: `allEntriesByRole`, each queue fully drained in
priority order. -/
def allEntriesByRole (s : AttentionState) : List (String × List AttentionEntry) :=
  s.pending.map (fun p => (p.1, drainQueue p.2))

/-- Step 2 of the tick: `totalSize`, the summed content length of every
pending entry. -/
def pendingTotalSize (s : AttentionState) : Nat :=
  ((allEntriesByRole s).map (fun p => entriesSize p.2)).sum

/-- The tick's `totalFocus`: summed over `allEntriesByRole.keys()`, i.e.
over every role present in the pending map — including roles whose queues
are currently empty, since the map never deletes keys. -/
def totalFocusOf (s : AttentionState) : ℚ :=
  ((allEntriesByRole s).map (fun p => getFacultyFocus s p.1)).sum

/-- The tick's `roleMaxSize` for one role:
`Math.floor(maxAddSize * (roleFocus / totalFocus))`. -/
def roleShare (s : AttentionState) (role : String) : ℤ :=
  (maxAddSize s.config * (getFacultyFocus s role / totalFocusOf s)).floor

/-- The per-role selection loop of the tick: scan the drained entries in
order, admit an entry iff the admitted size so far plus its size stays
within the role's share, otherwise re-enqueue it. Returns
(admitted, re-enqueued), both in scan order. -/
def selectEntries (share : ℤ) (acc : Nat) :
    List AttentionEntry → List AttentionEntry × List AttentionEntry
  | [] => ([], [])
  | e :: rest =>
    if ((acc + entrySize e : Nat) : ℤ) ≤ share then
      let p := selectEntries share (acc + entrySize e) rest
      (e :: p.1, p.2)
    else
      let p := selectEntries share acc rest
      (p.1, e :: p.2)

/-- Step 3 of the tick: the `toAdd` list before sorting — everything when
`totalSize <= maxAddSize`, otherwise each role's greedy selection under its
share, concatenated in pending-map order. -/
def toAddOf (s : AttentionState) : List AttentionEntry :=
  if (pendingTotalSize s : ℚ) ≤ maxAddSize s.config then
    ((allEntriesByRole s).map (fun p => p.2)).flatten
  else
    ((allEntriesByRole s).map
      (fun p => (selectEntries (roleShare s p.1) 0 p.2).1)).flatten

/-- The pending map after the tick: every queue was fully drained, and in
the over-budget branch the entries that did not fit were re-enqueued. Keys
are kept either way. -/
def newPendingOf (s : AttentionState) : List (String × List AttentionEntry) :=
  if (pendingTotalSize s : ℚ) ≤ maxAddSize s.config then
    s.pending.map (fun p => (p.1, ([] : List AttentionEntry)))
  else
    (allEntriesByRole s).map
      (fun p => (p.1, (selectEntries (roleShare s p.1) 0 p.2).2))

/-- Step 4 of the tick: `addedSize`, computed on `toAdd` before sorting. -/
def addedSizeOf (s : AttentionState) : Nat := entriesSize (toAddOf s)

/-- Step 5 of the tick: `toAdd.sort((a, b) => a.timestamp - b.timestamp)`
(JS sort is stable). -/
def sortedToAdd (s : AttentionState) : List AttentionEntry :=
  (toAddOf s).insertionSort (fun a b => a.timestamp ≤ b.timestamp)

/-- `clearAttentionField`'s `clearCount`:
`Math.floor(attentionField.length * clearPercentage)`. -/
def clearCount (field : List AttentionEntry) (cfg : AttentionConfig) : Nat :=
  (((field.length : ℚ) * cfg.clearPercentage).floor).toNat

/-- `clearAttentionField`: if `clearCount` is zero return unchanged;
otherwise splice off the `clearCount` oldest entries, recompute
`currentSize` from the remainder, and (when a hub port is bound) publish
the `cleared` body. Returns (field, currentSize, published bodies). -/
def clearAttentionField (cfg : AttentionConfig) (hubBound : Bool)
    (field : List AttentionEntry) (curSize : Nat) :
    List AttentionEntry × Nat × List HubBody :=
  let k := clearCount field cfg
  if k = 0 then (field, curSize, [])
  else
    let clearedEntries := field.take k
    let remaining := field.drop k
    let clearedSize := entriesSize clearedEntries
    let newSize := entriesSize remaining
    (remaining, newSize,
      if hubBound then
        [HubBody.cleared clearedEntries k field.length clearedSize newSize]
      else [])

/-- `processPendingActivities`, one admission tick: drain, allocate, sort
by timestamp, clear the field when `currentSize + addedSize > maxSize`,
append, and publish the `add` body when a hub port is bound. Returns the
new state and the bodies published during the tick, in publication
order. -/
def processPendingActivities (s : AttentionState) : AttentionState × List HubBody :=
  let toAdd := sortedToAdd s
  let addedSize := addedSizeOf s
  let cleared :=
    if s.config.maxSize < s.currentSize + addedSize then
      clearAttentionField s.config s.hubBound s.attentionField s.currentSize
    else (s.attentionField, s.currentSize, ([] : List HubBody))
  let field2 := cleared.1 ++ toAdd
  let size2 := cleared.2.1 + addedSize
  let pubs := cleared.2.2 ++
    (if s.hubBound then
      [HubBody.add toAdd field2 size2 s.config.maxSize
        ((size2 : ℚ) / (s.config.maxSize : ℚ))]
     else [])
  ({ s with attentionField := field2, currentSize := size2,
            pending := newPendingOf s }, pubs)

/-- JS `Map.set`: update the value at an existing key in place, otherwise
append the new pair. -/
def setKey (m : List (String × ℚ)) (k : String) (v : ℚ) : List (String × ℚ) :=
  match m with
  | [] => [(k, v)]
  | (k', v') :: rest =>
    if k' = k then (k', v) :: rest else (k', v') :: setKey rest k v

/-- `setFacultyFocus`: throws synchronously iff the focus value is outside
`[0, 1]`, otherwise updates the focus table. -/
def setFacultyFocus (s : AttentionState) (role : String) (v : ℚ) :
    Except String AttentionState :=
  if v < 0 ∨ 1 < v then .error "focus must lie between 0 and 1"
  else .ok { s with focuses := setKey s.focuses role v }

/-- The synchronous operation surface of the admission controller. `start`
and `stop` are `async` in the source, so even the `throw` inside `start`
surfaces as a rejected promise, never as a synchronous raise; their state
effects are listed here as non-raising operations (`tickOp` is the body of
`processPendingActivities`, `stopOp` the buffer reset done by `stop`). -/
inductive AttentionOp where
  | setFocus (role : String) (v : ℚ)
  | getFocus (role : String)
  | setHubOp
  | unsetHubOp
  | tickOp
  | stopOp
  | sleepOp
  | wakeUpOp
deriving DecidableEq, Repr

/-- Run one controller operation, returning `error` exactly where the
source raises synchronously. -/
def runOp (s : AttentionState) (op : AttentionOp) : Except String AttentionState :=
  match op with
  | .setFocus r v => setFacultyFocus s r v
  | .getFocus _ => .ok s
  | .setHubOp => .ok { s with hubBound := true }
  | .unsetHubOp => .ok { s with hubBound := false }
  | .tickOp => .ok (processPendingActivities s).1
  | .stopOp => .ok { s with attentionField := [], pending := [], currentSize := 0 }
  | .sleepOp => .ok s
  | .wakeUpOp => .ok s

/-! ### The Hub event bus (`HubImpl`) -/

/-- An activity body as the hub inspects it: only the `action`
discriminant matters for matching. -/
structure ActivityBody where
  action : String
deriving DecidableEq, Repr

/-- An activity on the bus (`Activity` in the source). -/
structure Activity where
  id : String
  role : String
  timestamp : Int
  details : ActivityBody
deriving DecidableEq, Repr

/-- A handler's condition: a callable filter or a structural mask
(`ActivityFilter | ActivityMask`). -/
inductive ActivityCond where
  | filter (f : Activity → Bool)
  | mask (role : Option String) (verb : Option String)

/-- A registered activity handler. Its `handle` is asynchronous: the
promise either resolves (`ok`) or rejects (`error`). -/
structure ActivityHandler where
  condition : ActivityCond
  role : String
  description : String
  handle : Activity → Except String Unit

/-- `matchCondition`: an undefined mask field matches anything; defined
fields must match the activity's role resp. `details.action`. -/
def matchCondition (a : Activity) (role : Option String) (verb : Option String) : Bool :=
  match role with
  | some r => if a.role ≠ r then false else
      match verb with
      | some v => if a.details.action ≠ v then false else true
      | none => true
  | none =>
      match verb with
      | some v => if a.details.action ≠ v then false else true
      | none => true

/-- The matching step of `triggerHandlers`. -/
def matchesHandler (h : ActivityHandler) (a : Activity) : Bool :=
  match h.condition with
  | .filter f => f a
  | .mask r v => matchCondition a r v

/-- What one dispatched handler produces: a completed promise, or a
rejection caught by the per-handler `.catch` and logged with the handler's
description. -/
inductive HandlerOutcome where
  | completed (description : String)
  | loggedError (description : String) (message : String)
deriving DecidableEq, Repr

/-- One handler invocation wrapped in its `.catch`: a rejection is
converted into a logged diagnostic, never re-raised. -/
def runHandler (h : ActivityHandler) (a : Activity) : HandlerOutcome :=
  match h.handle a with
  | .ok _ => .completed h.description
  | .error e => .loggedError h.description e

/-- `triggerHandlers`: collect the matching handlers, then dispatch each
one independently under its own `.catch`. -/
def triggerHandlers (handlers : List ActivityHandler) (a : Activity) :
    List HandlerOutcome :=
  (handlers.filter (fun h => matchesHandler h a)).map (fun h => runHandler h a)

/-- The hub registry state: registered faculty roles, the running flag,
and the handler set in registration order. -/
structure HubState where
  faculties : List String
  running : Bool
  all_handlers : List ActivityHandler

/-- Warnings `appendActivity` can log. -/
inductive HubLog where
  | notRunningWarn
  | unknownRoleWarn (role : String)
deriving DecidableEq, Repr

/-- `appendActivity`: a no-op warning when the hub is not running;
otherwise a warning (only) for an unregistered publisher role, then
dispatch. Returns the handler outcomes and the warnings logged; the
registry state is not modified. -/
def appendActivity (s : HubState) (a : Activity) : List HandlerOutcome × List HubLog :=
  if s.running = false then ([], [HubLog.notRunningWarn])
  else
    ((triggerHandlers s.all_handlers a),
     if s.faculties.contains a.role then [] else [HubLog.unknownRoleWarn a.role])

/-! ### Concrete instances used by counterexamples and witnesses -/

/-- Refinement definition following the spec's words, for comparison with
`totalFocusOf`: "`totalFocus` = sum of `focus[role]` over roles that
currently have pending entries". The code instead sums over every key of
the pending map, including roles whose queues are empty. -/
def specTotalFocus (s : AttentionState) : ℚ :=
  (((allEntriesByRole s).filter (fun p => !p.2.isEmpty)).map
    (fun p => getFacultyFocus s p.1)).sum

/-- Config for the size-bound counterexample: `maxSize` 5, budget 200. -/
def cfgC1 : AttentionConfig :=
  { maxSize := 5, clearPercentage := 1/2, reaction_time := 200,
    size_per_second := 1000, max_entry_length := 100 }

/-- A resting state at exactly `maxSize`: one 5-char entry in the field,
one 5-char entry pending. -/
def sC1 : AttentionState :=
  { config := cfgC1, focuses := [],
    attentionField := [{ role := "m", timestamp := 1, priority := 5, content := "aaaaa".toList }],
    currentSize := 5,
    pending := [("m", [{ role := "m", timestamp := 2, priority := 5, content := "bbbbb".toList }])],
    hubBound := false }

/-- Config for the fairness counterexample: budget `50 * 200/1000 = 10`
characters per tick. -/
def cfgC2 : AttentionConfig :=
  { maxSize := 1000, clearPercentage := 1/2, reaction_time := 200,
    size_per_second := 50, max_entry_length := 100 }

/-- Role A publishes 5 chars on the first tick. -/
def aCon : Conscious :=
  { role := "A", timestamp := 1, priority := 5, readable := .ok "aaaaa".toList }

/-- Role B's high-priority 10-char activity. -/
def b1Con : Conscious :=
  { role := "B", timestamp := 2, priority := 9, readable := .ok "bbbbbbbbbb".toList }

/-- Role B's low-priority 10-char activity. -/
def b2Con : Conscious :=
  { role := "B", timestamp := 3, priority := 1, readable := .ok "cccccccccc".toList }

/-- Empty starting state under `cfgC2`. -/
def s0C2 : AttentionState :=
  { config := cfgC2, focuses := [], attentionField := [], currentSize := 0,
    pending := [], hubBound := false }

/-- After role A's activity and one tick that admits it: role A's queue is
empty but its key stays in the pending map. -/
def s2C2 : AttentionState :=
  (processPendingActivities (handleConsciousActivity s0C2 aCon)).1

/-- Role B then enqueues 20 pending chars; the next tick is over budget. -/
def s3C2 : AttentionState :=
  handleConsciousActivity (handleConsciousActivity s2C2 b1Con) b2Con

/-- A minimal over-budget state for the allocation witness: budget 1,
one role with a 2-char pending entry. -/
def sC2w : AttentionState :=
  { config := { maxSize := 1000, clearPercentage := 1/2, reaction_time := 200,
                size_per_second := 5, max_entry_length := 100 },
    focuses := [], attentionField := [], currentSize := 0,
    pending := [("X", [{ role := "X", timestamp := 1, priority := 5, content := "xy".toList }])],
    hubBound := false }

/-- Config for the chronological-order counterexample: budget 6 chars. -/
def cfgC3 : AttentionConfig :=
  { maxSize := 1000, clearPercentage := 1/2, reaction_time := 200,
    size_per_second := 30, max_entry_length := 100 }

/-- High-priority conscious activity with the later timestamp 10. -/
def e1Con : Conscious :=
  { role := "r", timestamp := 10, priority := 9, readable := .ok "aaaaaa".toList }

/-- Low-priority conscious activity with the earlier timestamp 5. -/
def e2Con : Conscious :=
  { role := "r", timestamp := 5, priority := 1, readable := .ok "bbbbbb".toList }

/-- Both activities enqueued under `cfgC3`; the first tick can only admit
one of them. -/
def s1C3 : AttentionState :=
  handleConsciousActivity
    (handleConsciousActivity
      { config := cfgC3, focuses := [], attentionField := [], currentSize := 0,
        pending := [], hubBound := false } e1Con) e2Con

/-- After two ticks: the first admits the high-priority late entry and
defers the early one, the second admits the deferred early entry. -/
def s3C3 : AttentionState :=
  (processPendingActivities (processPendingActivities s1C3).1).1

/-- A state for the order-preservation witness: sorted field, one pending
entry newer than everything in the field, generous budget. -/
def sC3w : AttentionState :=
  { config := { maxSize := 1000, clearPercentage := 1/2, reaction_time := 200,
                size_per_second := 500, max_entry_length := 100 },
    focuses := [],
    attentionField := [{ role := "r", timestamp := 1, priority := 5, content := "aa".toList }],
    currentSize := 2,
    pending := [("r", [{ role := "r", timestamp := 9, priority := 5, content := "bb".toList }])],
    hubBound := false }

/-- The eviction scenario of the spec: `maxSize` 100, `clearPercentage`
0.5, ten 10-char entries in the field, one more 10-char entry pending,
budget 100. -/
def sC5 : AttentionState :=
  { config := { maxSize := 100, clearPercentage := 1/2, reaction_time := 200,
                size_per_second := 500, max_entry_length := 100 },
    focuses := [],
    attentionField := (List.range 10).map (fun i =>
      { role := "f", timestamp := (i : Int), priority := 5, content := List.replicate 10 'c' }),
    currentSize := 100,
    pending := [("f", [{ role := "f", timestamp := 20, priority := 5, content := List.replicate 10 'd' }])],
    hubBound := true }

/-- Config with `max_entry_length = 2`, below the marker's length. -/
def cfgC6 : AttentionConfig :=
  { maxSize := 100, clearPercentage := 1/2, reaction_time := 200,
    size_per_second := 500, max_entry_length := 2 }

/-- A conscious activity rendering to 3 characters. -/
def cC6 : Conscious :=
  { role := "x", timestamp := 0, priority := 0, readable := .ok "abc".toList }

/-- Config with `max_entry_length = 10` for the truncation witness. -/
def cfgC6w : AttentionConfig :=
  { maxSize := 100, clearPercentage := 1/2, reaction_time := 200,
    size_per_second := 500, max_entry_length := 10 }

/-- A conscious activity rendering to 11 characters. -/
def cC6w : Conscious :=
  { role := "x", timestamp := 0, priority := 0, readable := .ok "abcdefghijk".toList }

/-- A handler whose asynchronous result always fails. -/
def badH : ActivityHandler :=
  { condition := .mask none none, role := "m", description := "bad",
    handle := fun _ => .error "boom" }

/-- A healthy handler that matches everything. -/
def goodH : ActivityHandler :=
  { condition := .filter (fun _ => true), role := "m", description := "good",
    handle := fun _ => .ok () }

/-- A concrete activity published by an unregistered role. -/
def actW : Activity :=
  { id := "x-000-0001", role := "x", timestamp := 0, details := { action := "ping" } }

/-- A stopped hub holding both handlers. -/
def stoppedHub : HubState :=
  { faculties := [], running := false, all_handlers := [badH, goodH] }

/-- A running hub with no registered faculties and one healthy handler. -/
def runHub : HubState :=
  { faculties := [], running := true, all_handlers := [goodH] }

/-- A focus-table state for the `setFocus` witness. -/
def sC8 : AttentionState :=
  { config := cfgC1, focuses := [("k", 1)], attentionField := [], currentSize := 0,
    pending := [], hubBound := false }

/-- A hub-bound state with nothing pending: its tick admits nothing but
still publishes an `add` body. -/
def sC10 : AttentionState :=
  { config := { maxSize := 100, clearPercentage := 1/2, reaction_time := 200,
                size_per_second := 500, max_entry_length := 100 },
    focuses := [],
    attentionField := [{ role := "m", timestamp := 1, priority := 5, content := "aaaaa".toList }],
    currentSize := 5, pending := [], hubBound := true }

/-! ### Helper lemmas -/

attribute [local semireducible] Rat.add Rat.mul Rat.inv Rat.sub Rat.ofScientific

theorem entriesSize_append (l₁ l₂ : List AttentionEntry) :
    entriesSize (l₁ ++ l₂) = entriesSize l₁ + entriesSize l₂ := by
  simp [entriesSize]

theorem entriesSize_perm {l₁ l₂ : List AttentionEntry} (h : l₁.Perm l₂) :
    entriesSize l₁ = entriesSize l₂ :=
  (h.map entrySize).sum_eq

theorem entriesSize_sortedToAdd (s : AttentionState) :
    entriesSize (sortedToAdd s) = addedSizeOf s :=
  entriesSize_perm (List.perm_insertionSort _ (toAddOf s))

theorem clearAttentionField_fst (cfg : AttentionConfig) (hb : Bool)
    (field : List AttentionEntry) (cur : Nat) :
    (clearAttentionField cfg hb field cur).1 = field.drop (clearCount field cfg) := by
  unfold clearAttentionField
  by_cases hk : clearCount field cfg = 0 <;> simp [hk]

theorem clearAttentionField_size (cfg : AttentionConfig) (hb : Bool)
    (field : List AttentionEntry) (cur : Nat) (h : entriesSize field = cur) :
    (clearAttentionField cfg hb field cur).2.1
      = entriesSize (clearAttentionField cfg hb field cur).1 := by
  unfold clearAttentionField
  by_cases hk : clearCount field cfg = 0 <;> simp [hk, h]

theorem selectEntries_perm (share : ℤ) (acc : Nat) (l : List AttentionEntry) :
    l.Perm ((selectEntries share acc l).1 ++ (selectEntries share acc l).2) := by
  induction l generalizing acc with
  | nil => simp [selectEntries]
  | cons e rest ih =>
    rw [selectEntries]
    by_cases hc : ((acc + entrySize e : Nat) : ℤ) ≤ share
    · rw [if_pos hc]
      exact (ih (acc + entrySize e)).cons e
    · rw [if_neg hc]
      exact ((ih acc).cons e).trans List.perm_middle.symm

/-! ### Claim theorems -/

/-- C1 (amended): after every admission tick, the controller's
`currentSize` again equals the summed content length of the entries in the
attention field, provided it did before the tick. (The second half of the
claimed invariant, `currentSize ≤ maxSize`, fails on the code: see the
counterexample.) -/
theorem attention_tick_size_accounting (s : AttentionState)
    (h : entriesSize s.attentionField = s.currentSize) :
    entriesSize (processPendingActivities s).1.attentionField
      = (processPendingActivities s).1.currentSize := by
  simp only [processPendingActivities]
  by_cases hov : s.config.maxSize < s.currentSize + addedSizeOf s
  · simp only [hov, if_true, entriesSize_append, entriesSize_sortedToAdd]
    rw [clearAttentionField_size s.config s.hubBound s.attentionField s.currentSize h]
  · simp only [hov, if_false, entriesSize_append, entriesSize_sortedToAdd, h]

/-- C1 witness: the accounting equation applied to the concrete state
`sC1`, whose pre-tick state satisfies it. -/
theorem attention_tick_size_accounting_witness :
    entriesSize sC1.attentionField = sC1.currentSize
    ∧ entriesSize (processPendingActivities sC1).1.attentionField
        = (processPendingActivities sC1).1.currentSize :=
  ⟨by decide, attention_tick_size_accounting sC1 (by decide)⟩

/-- C1 counterexample: starting from the resting state `sC1` — which
satisfies both halves of the claimed invariant — one admission tick ends
with `currentSize = 10 > maxSize = 5`: the eviction count
`floor(1 * 0.5)` is zero, so nothing is evicted and the size bound is
violated after the tick completes. -/
theorem attention_tick_maxSize_violation_cex :
    entriesSize sC1.attentionField = sC1.currentSize
    ∧ sC1.currentSize ≤ sC1.config.maxSize
    ∧ entriesSize (processPendingActivities sC1).1.attentionField
        = (processPendingActivities sC1).1.currentSize
    ∧ ¬ (processPendingActivities sC1).1.currentSize ≤ sC1.config.maxSize := by
  decide

/-- C5: when admitting would overflow the field, exactly
`floor(preAdmissionFieldLength * clearPercentage)` oldest entries are
evicted (none when that floors to zero), exactly once and before the
admitted batch is appended, and admission itself is never refused — the
sorted batch is appended in full in every case. -/
theorem attention_eviction_before_append (s : AttentionState)
    (h : s.config.maxSize < s.currentSize + addedSizeOf s) :
    (processPendingActivities s).1.attentionField
      = s.attentionField.drop (clearCount s.attentionField s.config) ++ sortedToAdd s
    ∧ (clearCount s.attentionField s.config ≠ 0 →
        (processPendingActivities s).1.currentSize
          = entriesSize (s.attentionField.drop (clearCount s.attentionField s.config))
            + addedSizeOf s)
    ∧ (clearCount s.attentionField s.config = 0 →
        (processPendingActivities s).1.attentionField
            = s.attentionField ++ sortedToAdd s
        ∧ (processPendingActivities s).1.currentSize
            = s.currentSize + addedSizeOf s) := by
  refine ⟨?_, ?_, ?_⟩
  · simp only [processPendingActivities, h, if_true]
    rw [clearAttentionField_fst]
  · intro hk
    simp only [processPendingActivities, h, if_true]
    unfold clearAttentionField
    simp [hk]
  · intro hk
    simp only [processPendingActivities, h, if_true]
    unfold clearAttentionField
    simp [hk]

/-- C5 witness: the spec's scenario. `maxSize = 100`,
`clearPercentage = 0.5`, ten 10-char entries at rest, one more 10-char
entry admitted: the 5 oldest entries (50 chars) are evicted before
appending and the tick ends with field size 60. -/
theorem attention_eviction_before_append_witness :
    sC5.config.maxSize < sC5.currentSize + addedSizeOf sC5
    ∧ (processPendingActivities sC5).1.attentionField
        = sC5.attentionField.drop (clearCount sC5.attentionField sC5.config) ++ sortedToAdd sC5
    ∧ clearCount sC5.attentionField sC5.config = 5
    ∧ entriesSize (sC5.attentionField.take 5) = 50
    ∧ (processPendingActivities sC5).1.currentSize = 60
    ∧ (processPendingActivities sC5).1.attentionField.length = 6 :=
  ⟨by decide, (attention_eviction_before_append sC5 (by decide)).1,
   by decide, by decide, by decide, by decide⟩

/-- C6 (amended): provided the configured `max_entry_length` is at least
the 3-character marker, a rendering longer than `max_entry_length` is
stored as exactly `max_entry_length` characters ending in the truncation
marker, and a rendering of at most `max_entry_length` characters is stored
unchanged. (For `max_entry_length < 3` the claim fails: see the
counterexample.) -/
theorem conscious_truncation_bound (cfg : AttentionConfig) (c : Conscious)
    (txt : List Char) (hr : c.readable = .ok txt)
    (h3 : 3 ≤ cfg.max_entry_length) :
    (cfg.max_entry_length < txt.length →
       consciousToEntry cfg c
           = some { role := c.role, timestamp := c.timestamp, priority := c.priority,
                    content := txt.take (cfg.max_entry_length - 3) ++ truncMarker }
       ∧ (txt.take (cfg.max_entry_length - 3) ++ truncMarker).length
           = cfg.max_entry_length
       ∧ truncMarker <:+ txt.take (cfg.max_entry_length - 3) ++ truncMarker)
    ∧ (txt.length ≤ cfg.max_entry_length →
       consciousToEntry cfg c
           = some { role := c.role, timestamp := c.timestamp, priority := c.priority,
                    content := txt }) := by
  constructor
  · intro hlong
    refine ⟨?_, ?_, List.suffix_append _ _⟩
    · simp [consciousToEntry, hr, hlong]
    · have hmin : min (cfg.max_entry_length - 3) txt.length = cfg.max_entry_length - 3 := by
        omega
      simp [List.length_take, truncMarker, hmin]
      omega
  · intro hshort
    have : ¬ cfg.max_entry_length < txt.length := by omega
    simp [consciousToEntry, hr, this]

/-- C6 witness: with `max_entry_length = 10`, an 11-character rendering is
stored as exactly 10 characters ending in the marker. -/
theorem conscious_truncation_bound_witness :
    cC6w.readable = .ok "abcdefghijk".toList
    ∧ 3 ≤ cfgC6w.max_entry_length
    ∧ cfgC6w.max_entry_length < "abcdefghijk".toList.length
    ∧ consciousToEntry cfgC6w cC6w
        = some { role := cC6w.role, timestamp := cC6w.timestamp, priority := cC6w.priority,
                 content := "abcdefghijk".toList.take (cfgC6w.max_entry_length - 3) ++ truncMarker }
    ∧ ("abcdefghijk".toList.take (cfgC6w.max_entry_length - 3) ++ truncMarker).length
        = cfgC6w.max_entry_length
    ∧ truncMarker <:+ "abcdefghijk".toList.take (cfgC6w.max_entry_length - 3) ++ truncMarker :=
  ⟨rfl, by decide, by decide,
   ((conscious_truncation_bound cfgC6w cC6w _ rfl (by decide)).1 (by decide)).1,
   ((conscious_truncation_bound cfgC6w cC6w _ rfl (by decide)).1 (by decide)).2.1,
   ((conscious_truncation_bound cfgC6w cC6w _ rfl (by decide)).1 (by decide)).2.2⟩

/-- C6 counterexample: with `max_entry_length = 2` a 3-character rendering
is stored as the 3-character marker itself — longer than
`max_entry_length` — because `substring(0, max_entry_length - 3)` clamps
to the empty string before the marker is appended. -/
theorem conscious_truncation_short_config_cex :
    cfgC6.max_entry_length = 2
    ∧ (consciousToEntry cfgC6 cC6).map (fun e => e.content.length) = some 3 := by
  decide

/-- C2 (amended): on an over-budget tick, each role present in the
pending map — including roles whose queues are empty, since keys are never
removed — is allotted the share `floor(budget * focus[role] / totalFocus)`
with `totalFocus` summed over all pending-map keys; within a role the
drained entries are scanned in priority order (ties in insertion order)
and an entry is admitted iff it fits the remaining share, every other
entry being re-enqueued; consequently each role's drained entries are a
permutation of its admitted plus re-enqueued entries, and
`admitted + reEnqueued = pendingBeforeTick` for every role — no entry is
dropped by admission. -/
theorem attention_overBudget_allocation (s : AttentionState)
    (h : maxAddSize s.config < (pendingTotalSize s : ℚ)) :
    toAddOf s = ((allEntriesByRole s).map
        (fun p => (selectEntries (roleShare s p.1) 0 p.2).1)).flatten
    ∧ (processPendingActivities s).1.pending
        = (allEntriesByRole s).map
            (fun p => (p.1, (selectEntries (roleShare s p.1) 0 p.2).2))
    ∧ (∀ p ∈ s.pending,
        (drainQueue p.2).Perm
          ((selectEntries (roleShare s p.1) 0 (drainQueue p.2)).1
            ++ (selectEntries (roleShare s p.1) 0 (drainQueue p.2)).2))
    ∧ (∀ p ∈ s.pending,
        (selectEntries (roleShare s p.1) 0 (drainQueue p.2)).1.length
          + (selectEntries (roleShare s p.1) 0 (drainQueue p.2)).2.length
          = p.2.length) := by
  have hnot : ¬ ((pendingTotalSize s : ℚ) ≤ maxAddSize s.config) := not_le.mpr h
  refine ⟨?_, ?_, ?_, ?_⟩
  · unfold toAddOf
    rw [if_neg hnot]
  · show newPendingOf s = _
    unfold newPendingOf
    rw [if_neg hnot]
  · intro p _
    exact selectEntries_perm (roleShare s p.1) 0 (drainQueue p.2)
  · intro p _
    have h1 : (drainQueue p.2).length = p.2.length := List.length_insertionSort _ _
    have h2 := (selectEntries_perm (roleShare s p.1) 0 (drainQueue p.2)).length_eq
    rw [List.length_append] at h2
    omega

/-- C2 witness: the allocation equations applied to a concrete over-budget
state (budget 1 character, a single role with one 2-char pending entry,
which is re-enqueued whole). -/
theorem attention_overBudget_allocation_witness :
    maxAddSize sC2w.config < (pendingTotalSize sC2w : ℚ)
    ∧ (processPendingActivities sC2w).1.pending
        = (allEntriesByRole sC2w).map
            (fun p => (p.1, (selectEntries (roleShare sC2w p.1) 0 p.2).2)) :=
  ⟨by decide, (attention_overBudget_allocation sC2w (by decide)).2.1⟩

/-- C2 counterexample: after role A's pending entries were all admitted on
an earlier tick, role A's key stays in the pending map with an empty
queue. On the next tick only role B has pending entries (20 chars against
a 10-char budget), so the claim says `totalFocus = 1` and B's share is the
whole budget `10`, admitting B's highest-priority 10-char entry. The code
instead computes `totalFocus = 2` (stale role A still counts),
giving B the share `floor(10/2) = 5`, and admits nothing at all: both of
B's entries are re-enqueued. -/
theorem attention_totalFocus_stale_roles_cex :
    maxAddSize cfgC2 < (pendingTotalSize s3C2 : ℚ)
    ∧ specTotalFocus s3C2 = 1
    ∧ totalFocusOf s3C2 = 2
    ∧ maxAddSize cfgC2 * (getFacultyFocus s3C2 "B" / specTotalFocus s3C2) = 10
    ∧ roleShare s3C2 "B" = 5
    ∧ (drainQueue ((List.lookup "B" s3C2.pending).getD [])).head?
        = some { role := "B", timestamp := 2, priority := 9,
                 content := "bbbbbbbbbb".toList }
    ∧ toAddOf s3C2 = []
    ∧ (processPendingActivities s3C2).1.pending
        = [("A", []),
           ("B", [{ role := "B", timestamp := 2, priority := 9,
                    content := "bbbbbbbbbb".toList },
                  { role := "B", timestamp := 3, priority := 1,
                    content := "cccccccccc".toList }])] := by
  decide

/-- C3 (amended): each tick's admitted batch is re-sorted by original
event timestamp ascending before it is appended, so the batch itself is
chronologically ordered; the whole field stays ordered only under the
additional condition that every admitted entry is at least as late as
every entry already in the field — without it, ordering fails (see the
counterexample with a deferred entry). -/
theorem attention_field_batch_order (s : AttentionState) :
    (sortedToAdd s).Pairwise (fun a b => a.timestamp ≤ b.timestamp)
    ∧ (s.attentionField.Pairwise (fun a b => a.timestamp ≤ b.timestamp) →
       (∀ e ∈ toAddOf s, ∀ f ∈ s.attentionField, f.timestamp ≤ e.timestamp) →
       (processPendingActivities s).1.attentionField.Pairwise
         (fun a b => a.timestamp ≤ b.timestamp)) := by
  haveI hto : IsTotal AttentionEntry (fun a b => a.timestamp ≤ b.timestamp) :=
    ⟨fun a b => le_total a.timestamp b.timestamp⟩
  haveI htr : IsTrans AttentionEntry (fun a b => a.timestamp ≤ b.timestamp) :=
    ⟨fun _ _ _ h1 h2 => le_trans h1 h2⟩
  constructor
  · exact List.sorted_insertionSort _ _
  · intro hfield hcross
    have hfe : (processPendingActivities s).1.attentionField
        = (if s.config.maxSize < s.currentSize + addedSizeOf s then
             clearAttentionField s.config s.hubBound s.attentionField s.currentSize
           else (s.attentionField, s.currentSize, [])).1 ++ sortedToAdd s := rfl
    rw [hfe, List.pairwise_append]
    refine ⟨?_, List.sorted_insertionSort _ _, ?_⟩
    · by_cases hov : s.config.maxSize < s.currentSize + addedSizeOf s
      · rw [if_pos hov, clearAttentionField_fst]
        exact hfield.sublist (List.drop_sublist _ _)
      · rw [if_neg hov]
        exact hfield
    · intro a ha b hb
      have hb' : b ∈ toAddOf s := (List.mem_insertionSort _).mp hb
      have ha' : a ∈ s.attentionField := by
        by_cases hov : s.config.maxSize < s.currentSize + addedSizeOf s
        · rw [if_pos hov, clearAttentionField_fst] at ha
          exact List.mem_of_mem_drop ha
        · rw [if_neg hov] at ha
          exact ha
      exact hcross b hb' a ha'

/-- C3 witness: the batch-order statement applied to a state whose sorted
field receives one strictly newer admitted entry, so the field stays
chronologically ordered after the tick. -/
theorem attention_field_batch_order_witness :
    sC3w.attentionField.Pairwise (fun a b => a.timestamp ≤ b.timestamp)
    ∧ (∀ e ∈ toAddOf sC3w, ∀ f ∈ sC3w.attentionField, f.timestamp ≤ e.timestamp)
    ∧ (processPendingActivities sC3w).1.attentionField.Pairwise
        (fun a b => a.timestamp ≤ b.timestamp) :=
  ⟨by decide, by decide,
   (attention_field_batch_order sC3w).2 (by decide) (by decide)⟩

/-- C3 counterexample: a reachable two-tick run in which a low-priority
entry with timestamp 5 is deferred by the first tick (its role's share is
exhausted by a higher-priority entry with timestamp 10) and admitted by
the second; the field then holds timestamps `[10, 5]` and is not ordered
by timestamp ascending, although every admitted batch was re-sorted. -/
theorem attention_field_order_deferral_cex :
    s3C3.attentionField.map (fun e => e.timestamp) = [10, 5]
    ∧ ¬ s3C3.attentionField.Pairwise (fun a b => a.timestamp ≤ b.timestamp) := by
  decide

/-- C4: dispatch of a published activity is per-handler isolated. The
outcome list for `hs₁ ++ h :: hs₂` decomposes pointwise: every matching
handler — before, equal to, or after `h` — contributes exactly the outcome
of its own invocation, independent of `h`'s behaviour, and a handler whose
asynchronous result fails contributes a logged diagnostic carrying its
description rather than a propagated error. `triggerHandlers` (and hence
`appendActivity`) is a total function into outcome lists, so no handler
failure reaches the publisher, and dispatch does not modify the handler
registry, so later activities see the same handlers. -/
theorem hub_handler_isolation (hs₁ : List ActivityHandler) (h : ActivityHandler)
    (hs₂ : List ActivityHandler) (a : Activity) :
    triggerHandlers (hs₁ ++ h :: hs₂) a
      = triggerHandlers hs₁ a
        ++ (if matchesHandler h a then [runHandler h a] else [])
        ++ triggerHandlers hs₂ a
    ∧ (∀ e, h.handle a = .error e →
        runHandler h a = .loggedError h.description e) := by
  constructor
  · unfold triggerHandlers
    rw [List.filter_append, List.map_append, List.filter_cons]
    cases hm : matchesHandler h a <;> simp [hm]
  · intro e he
    unfold runHandler
    rw [he]

/-- C4 witness: a failing handler registered before a healthy one — the
failing handler's rejection becomes a logged outcome and the healthy
handler still completes for the same activity. -/
theorem hub_handler_isolation_witness :
    triggerHandlers ([] ++ badH :: [goodH]) actW
        = triggerHandlers [] actW
          ++ (if matchesHandler badH actW then [runHandler badH actW] else [])
          ++ triggerHandlers [goodH] actW
    ∧ runHandler badH actW = .loggedError badH.description "boom"
    ∧ triggerHandlers [badH, goodH] actW
        = [.loggedError "bad" "boom", .completed "good"] :=
  ⟨(hub_handler_isolation [] badH [goodH] actW).1,
   (hub_handler_isolation [] badH [goodH] actW).2 "boom" rfl,
   rfl⟩

/-- C7: `appendActivity` on a stopped hub returns `([], warning)` — no
handler outcome, no raise, no state change; on a running hub the outcome
list is exactly `triggerHandlers` of the registered handlers, computed
without consulting the faculty registry, so an unregistered publishing
role only adds a warning log while dispatch proceeds. -/
theorem hub_publish_gating (s : HubState) (a : Activity) :
    (s.running = false → appendActivity s a = ([], [HubLog.notRunningWarn]))
    ∧ (s.running = true →
        (appendActivity s a).1 = triggerHandlers s.all_handlers a)
    ∧ (s.running = true → s.faculties.contains a.role = false →
        (appendActivity s a).2 = [HubLog.unknownRoleWarn a.role]) := by
  refine ⟨?_, ?_, ?_⟩
  · intro hr
    simp [appendActivity, hr]
  · intro hr
    simp [appendActivity, hr]
  · intro hr hf
    simp [appendActivity, hr, hf]
    intro hmem
    have hc : s.faculties.contains a.role = true := List.elem_iff.mpr hmem
    rw [hf] at hc
    exact Bool.false_ne_true hc

/-- C7 witness: a stopped hub ignores a publish; a running hub with an
empty faculty registry still dispatches the unregistered role's activity
to the matching handler, logging only a warning. -/
theorem hub_publish_gating_witness :
    stoppedHub.running = false
    ∧ appendActivity stoppedHub actW = ([], [HubLog.notRunningWarn])
    ∧ runHub.running = true
    ∧ runHub.faculties.contains actW.role = false
    ∧ (appendActivity runHub actW).1 = [HandlerOutcome.completed "good"]
    ∧ (appendActivity runHub actW).2 = [HubLog.unknownRoleWarn "x"] :=
  ⟨rfl, (hub_publish_gating stoppedHub actW).1 rfl, rfl, rfl,
   ((hub_publish_gating runHub actW).2.1 rfl).trans rfl,
   ((hub_publish_gating runHub actW).2.2 rfl rfl).trans rfl⟩

/-- C8: over the controller's synchronous operation surface, an operation
raises synchronously iff it is `setFacultyFocus` with a value outside
`[0, 1]`; an in-range `setFacultyFocus` succeeds and changes exactly the
focus table, leaving every other state component as it was. (`start` and
`stop` are `async`, so even the `throw` inside `start` surfaces as a
rejected promise, not a synchronous raise.) -/
theorem attention_setFocus_sync_error (s : AttentionState) (op : AttentionOp) :
    ((∃ msg, runOp s op = .error msg) ↔
      ∃ r v, op = .setFocus r v ∧ (v < 0 ∨ 1 < v))
    ∧ (∀ r v, ¬ (v < 0 ∨ 1 < v) →
        runOp s (.setFocus r v)
          = .ok { s with focuses := setKey s.focuses r v }) := by
  constructor
  · constructor
    · rintro ⟨msg, hmsg⟩
      cases op with
      | setFocus r v =>
        refine ⟨r, v, rfl, ?_⟩
        by_contra hc
        simp [runOp, setFacultyFocus, hc] at hmsg
      | getFocus r => simp [runOp] at hmsg
      | setHubOp => simp [runOp] at hmsg
      | unsetHubOp => simp [runOp] at hmsg
      | tickOp => simp [runOp] at hmsg
      | stopOp => simp [runOp] at hmsg
      | sleepOp => simp [runOp] at hmsg
      | wakeUpOp => simp [runOp] at hmsg
    · rintro ⟨r, v, rfl, hv⟩
      exact ⟨"focus must lie between 0 and 1",
        by simp [runOp, setFacultyFocus, hv]⟩
  · intro r v hv
    simp [runOp, setFacultyFocus, hv]

/-- C8 witness: `setFocus` with the out-of-range value 2 raises; with the
in-range value 1/2 it succeeds and rewrites only the focus table. -/
theorem attention_setFocus_sync_error_witness :
    (∃ msg, runOp sC8 (.setFocus "m" 2) = .error msg)
    ∧ runOp sC8 (.setFocus "m" (1/2))
        = .ok { sC8 with focuses := setKey sC8.focuses "m" (1/2) } :=
  ⟨(attention_setFocus_sync_error sC8 (.setFocus "m" 2)).1.mpr
      ⟨"m", 2, rfl, Or.inr (by decide)⟩,
   (attention_setFocus_sync_error sC8 (.setFocus "m" (1/2))).2 "m" (1/2) (by decide)⟩

/-- C10: when a hub port is bound, every tick publishes exactly one `add`
body — even when nothing was admitted — carrying the sorted added entries,
the full post-tick field snapshot, the post-tick `currentSize`, the
configured `maxSize`, and the usage ratio `currentSize / maxSize`; a
`cleared` body precedes it in the same tick exactly when at least one
entry was evicted, i.e. when the tick overflows and the eviction count
floors to a nonzero value. -/
theorem attention_tick_publishes (s : AttentionState) (hb : s.hubBound = true) :
    (processPendingActivities s).2
      = (if s.config.maxSize < s.currentSize + addedSizeOf s
            ∧ clearCount s.attentionField s.config ≠ 0 then
          [HubBody.cleared
            (s.attentionField.take (clearCount s.attentionField s.config))
            (clearCount s.attentionField s.config)
            s.attentionField.length
            (entriesSize (s.attentionField.take (clearCount s.attentionField s.config)))
            (entriesSize (s.attentionField.drop (clearCount s.attentionField s.config)))]
         else [])
        ++ [HubBody.add (sortedToAdd s)
              ((processPendingActivities s).1.attentionField)
              ((processPendingActivities s).1.currentSize)
              s.config.maxSize
              (((processPendingActivities s).1.currentSize : ℚ)
                / (s.config.maxSize : ℚ))] := by
  by_cases hov : s.config.maxSize < s.currentSize + addedSizeOf s
  · by_cases hk : clearCount s.attentionField s.config = 0
    · simp [processPendingActivities, clearAttentionField, hov, hk, hb]
    · simp [processPendingActivities, clearAttentionField, hov, hk, hb]
  · simp [processPendingActivities, clearAttentionField, hov, hb]

/-- C10 witness: a hub-bound tick with nothing pending admits nothing yet
still publishes a single `add` body with an empty added list, the
unchanged field snapshot, and usage 5/100. -/
theorem attention_tick_publishes_witness :
    sC10.hubBound = true
    ∧ toAddOf sC10 = []
    ∧ (processPendingActivities sC10).2
        = [HubBody.add [] sC10.attentionField 5 100 (5 / 100 : ℚ)] :=
  ⟨rfl, by decide, (attention_tick_publishes sC10 rfl).trans (by decide)⟩

end Clay
